import Mathlib

/-!
Verification of the Tree Patcher core of `RivalsPatcher.py` against its
natural-language specification.

Shallow embedding conventions:
* A filesystem path is a list of name components (`Path`), rooted at an
  abstract root `[]`.
* The filesystem state (`FS`) is a finite association list from file paths
  to file contents (modelling regular files and their bytes), together with
  the list of existing directories.  `shutil.copy2` is modelled as a read
  of the source content followed by a write (metadata is not modelled; no
  claim mentions it).
* `os.walk(src_root)` enumerates every regular file strictly below
  `src_root` exactly once; it is modelled as a filter over the file table,
  yielding `(relative_path, content)` pairs.  `os.walk` on a missing
  directory silently yields nothing (its default `onerror=None` swallows
  the `OSError`), which the filter reproduces.
* Exceptions are modelled with `Except RuntimeError`.  Crucially, the
  module never imports or defines the name `datetime` (its imports are at
  lines 2-6 and 68-74 of `RivalsPatcher.py`), so the expression
  `datetime.now().strftime(...)` at line 169 of `copy_tree_over` raises
  `NameError` on every invocation.  The embedding of `copy_tree_over` is
  therefore the discovery loop of lines 160-168 followed by
  `Except.error RuntimeError.nameError`, paired with the state reached at
  the raise point.  The continuation that lines 170-186 would execute had
  the name been defined is embedded separately and verbatim as
  `copy_tree_over_fixed`, with the timestamp string passed as a parameter;
  it is used to analyse the algorithm behind the slip.
-/

namespace RivalsPatcher

/-- A filesystem path, as a list of name components below an abstract root. -/
abbrev Path := List String

/-- Filesystem state: regular files (path, content) and existing directories. -/
structure FS where
  files : List (Path × String)
  dirs : List Path
deriving DecidableEq

/-- Errors a `copy_tree_over` invocation can raise: the `NameError` from the
undefined name `datetime` (line 169), and OS-level errors from file copies. -/
inductive RuntimeError where
  | nameError
  | ioError
deriving DecidableEq

/-- Lookup of a regular file's content (first matching entry wins). -/
def findFile : List (Path × String) → Path → Option String
  | [], _ => none
  | e :: rest, p => if e.1 = p then some e.2 else findFile rest p

/-- `shutil.copy2`'s effect on the destination: overwrite in place, or create. -/
def writeFile (l : List (Path × String)) (p : Path) (c : String) : List (Path × String) :=
  match l with
  | [] => [(p, c)]
  | e :: rest => if e.1 = p then (p, c) :: rest else e :: writeFile rest p c

/-- Overwrite or create the regular file at `p` with content `c`. -/
def FS.write (fs : FS) (p : Path) (c : String) : FS :=
  { fs with files := writeFile fs.files p c }

/-- `a` is an initial segment of `b` (ancestor-or-equal directory relation). -/
def isAncestorOf : Path → Path → Bool
  | [], _ => true
  | _ :: _, [] => false
  | a :: as, b :: bs => decide (a = b) && isAncestorOf as bs

/-- `p` lies strictly below directory `root`. -/
def strictlyUnder (root p : Path) : Bool :=
  isAncestorOf root p && decide (root ≠ p)

/-- `Path.exists()`: true for a regular file or a directory at `p`. -/
def FS.existsPath (fs : FS) (p : Path) : Bool :=
  (findFile fs.files p).isSome || decide (p ∈ fs.dirs)

/-- All nonempty initial segments of `p` (the directories `mkdir(parents=True)`
creates, outermost first, up to and including `p` itself). -/
def ancestorsOf (p : Path) : List Path :=
  (List.range p.length).map (fun k => p.take (k + 1))

/-- Record a directory if it is not already present. -/
def insertDir (ds : List Path) (d : Path) : List Path :=
  if d ∈ ds then ds else ds ++ [d]

/-- `q.mkdir(parents=True, exist_ok=True)`: create `q` and every ancestor. -/
def mkdirParents (fs : FS) (q : Path) : FS :=
  { fs with dirs := (ancestorsOf q).foldl insertDir fs.dirs }

/-- `os.walk(root)` enumeration of regular files strictly below `root`, as
`(path relative to root, content)` pairs (lines 160-163 / 175-179). -/
def walkFiles (fs : FS) (root : Path) : List (Path × String) :=
  fs.files.filterMap (fun e =>
    if strictlyUnder root e.1 then some (e.1.drop root.length, e.2) else none)

/-- One iteration of the first (discovery) loop of `copy_tree_over`
(lines 162-168): compute `dst_file`, create its parent directories, and
append it to `files_to_replace` when it already exists. -/
def discoveryStep (dst_root : Path) (acc : FS × List Path) (e : Path × String) :
    FS × List Path :=
  if (mkdirParents acc.1 (dst_root ++ e.1).dropLast).existsPath (dst_root ++ e.1) then
    (mkdirParents acc.1 (dst_root ++ e.1).dropLast, acc.2 ++ [dst_root ++ e.1])
  else
    (mkdirParents acc.1 (dst_root ++ e.1).dropLast, acc.2)

/-- State and `files_to_replace` list after the discovery loop
(lines 159-168 of `copy_tree_over`). -/
def discState (fs : FS) (src_root dst_root : Path) : FS × List Path :=
  (walkFiles fs src_root).foldl (discoveryStep dst_root) (fs, [])

/-- The `files_to_replace` list collected by the discovery loop. -/
def filesToReplaceOf (fs : FS) (src_root dst_root : Path) : List Path :=
  (discState fs src_root dst_root).2

/-- `copy_tree_over(src_root, dst_root)` (lines 156-186) as the code executes:
the discovery loop runs (creating destination parent directories and
collecting `files_to_replace`), then line 169 evaluates `datetime`, a name
that no import of the module binds, and the invocation raises `NameError`.
Result: the raised error, paired with the filesystem state at the raise
point.  Lines 170-186 are unreachable; see `copy_tree_over_fixed`. -/
def copy_tree_over (fs : FS) (src_root dst_root : Path) :
    Except RuntimeError (Nat × Nat × Path) × FS :=
  (Except.error RuntimeError.nameError, (discState fs src_root dst_root).1)

/-- The backup directory path `dst_root.parent / 'backups' / timestamp`
computed at lines 169-170. -/
def backupRootOf (dst_root : Path) (ts : String) : Path :=
  dst_root.dropLast ++ ["backups", ts]

/-- `backup_original_files(target_root, files_to_replace, backup_root)`
(lines 149-154): copy each listed destination file into the backup tree at
its path relative to `target_root`, creating parent directories.  A listed
path that is not a regular file makes `shutil.copy2` raise an `OSError`. -/
def backup_original_files (target_root : Path) (files_to_replace : List Path)
    (backup_root : Path) (fs : FS) : Except RuntimeError FS :=
  files_to_replace.foldlM (fun acc s =>
    match findFile (mkdirParents acc (backup_root ++ s.drop target_root.length).dropLast).files s with
    | some c =>
        Except.ok ((mkdirParents acc (backup_root ++ s.drop target_root.length).dropLast).write
          (backup_root ++ s.drop target_root.length) c)
    | none => Except.error RuntimeError.ioError) fs

/-- One iteration of the second (copy) loop of `copy_tree_over`
(lines 177-185): create the destination parent directories, bump
`overwritten` when the destination exists, and copy the source file over. -/
def copyStep (src_root dst_root : Path) (acc : Nat × Nat × FS) (e : Path × String) :
    Except RuntimeError (Nat × Nat × FS) :=
  match findFile (mkdirParents acc.2.2 (dst_root ++ e.1).dropLast).files (src_root ++ e.1) with
  | some c =>
      Except.ok (acc.1 + 1,
        (if (mkdirParents acc.2.2 (dst_root ++ e.1).dropLast).existsPath (dst_root ++ e.1)
         then acc.2.1 + 1 else acc.2.1),
        (mkdirParents acc.2.2 (dst_root ++ e.1).dropLast).write (dst_root ++ e.1) c)
  | none => Except.error RuntimeError.ioError

/-- Lines 156-186 of `copy_tree_over` with the single undefined name
`datetime` resolved: the timestamp string it would have produced is passed
as the parameter `ts`.  Everything else is translated verbatim: discovery
loop, unconditional `backup_root.mkdir(parents=True)` (line 171), backup of
`files_to_replace` when non-empty (lines 172-174), second walk with the
copy loop (lines 175-185), and the `(copied, overwritten, backup_root)`
return (line 186).  This is the minimal intent-fix of the missing-import
slip, used to analyse the algorithm the spec describes. -/
def copy_tree_over_fixed (ts : String) (fs : FS) (src_root dst_root : Path) :
    Except RuntimeError ((Nat × Nat × Path) × FS) :=
  match (if (discState fs src_root dst_root).2.isEmpty then
          Except.ok (mkdirParents (discState fs src_root dst_root).1 (backupRootOf dst_root ts))
         else
          backup_original_files dst_root (discState fs src_root dst_root).2
            (backupRootOf dst_root ts)
            (mkdirParents (discState fs src_root dst_root).1 (backupRootOf dst_root ts))) with
  | Except.error e => Except.error e
  | Except.ok fs3 =>
    match (walkFiles fs3 src_root).foldlM (copyStep src_root dst_root) (0, 0, fs3) with
    | Except.error e => Except.error e
    | Except.ok acc =>
        Except.ok ((acc.1, acc.2.1, backupRootOf dst_root ts), acc.2.2)

/-- The sky destination directory
`target_version / 'PlatformContent' / 'pc' / 'textures' / 'sky'` (line 264). -/
def skyDirOf (target_version : Path) : Path :=
  target_version ++ ["PlatformContent", "pc", "textures", "sky"]

/-- The applying tail of `patch_custom_sky` (lines 264-278), after a skybox
`selected` has been chosen: if the sky destination directory exists, every
entry below it is deleted (`shutil.rmtree` on directory children, `unlink`
on file children, lines 265-273); otherwise the directory is created.  Then
`copy_tree_over(selected, target_sky_dir)` runs (line 278). -/
def patch_custom_sky_apply (fs : FS) (selected target_version : Path) :
    Except RuntimeError (Nat × Nat × Path) × FS :=
  if fs.existsPath (skyDirOf target_version) then
    copy_tree_over
      { files := fs.files.filter (fun e => !(strictlyUnder (skyDirOf target_version) e.1)),
        dirs := fs.dirs.filter (fun dd => !(strictlyUnder (skyDirOf target_version) dd)) }
      selected (skyDirOf target_version)
  else
    copy_tree_over (mkdirParents fs (skyDirOf target_version))
      selected (skyDirOf target_version)

/-! ### Helper lemmas -/

theorem mkdirParents_files (fs : FS) (q : Path) : (mkdirParents fs q).files = fs.files := rfl

theorem discoveryStep_files (d : Path) (acc : FS × List Path) (e : Path × String) :
    ((discoveryStep d acc e).1).files = acc.1.files := by
  unfold discoveryStep
  split <;> rfl

theorem foldl_discoveryStep_files (d : Path) :
    ∀ (l : List (Path × String)) (acc : FS × List Path),
    ((l.foldl (discoveryStep d) acc).1).files = acc.1.files := by
  intro l
  induction l with
  | nil => intro acc; rfl
  | cons e rest ih =>
      intro acc
      rw [List.foldl_cons, ih, discoveryStep_files]

/-- The real `copy_tree_over` never writes, overwrites or deletes any
regular file: only the discovery loop runs before the `NameError`. -/
theorem copy_tree_over_files (fs : FS) (s d : Path) :
    ((copy_tree_over fs s d).2).files = fs.files :=
  foldl_discoveryStep_files d (walkFiles fs s) (fs, [])

/-- The real `copy_tree_over` raises `NameError` on every invocation. -/
theorem copy_tree_over_error (fs : FS) (s d : Path) :
    (copy_tree_over fs s d).1 = Except.error RuntimeError.nameError := rfl

theorem mem_insertDir (ds : List Path) (d x : Path) (h : x ∈ insertDir ds d) :
    x ∈ ds ∨ x = d := by
  unfold insertDir at h
  split at h
  · exact Or.inl h
  · rcases List.mem_append.mp h with h1 | h1
    · exact Or.inl h1
    · exact Or.inr (List.mem_singleton.mp h1)

theorem mem_foldl_insertDir :
    ∀ (l : List Path) (ds : List Path) (x : Path),
    x ∈ l.foldl insertDir ds → x ∈ ds ∨ x ∈ l := by
  intro l
  induction l with
  | nil => intro ds x h; exact Or.inl h
  | cons a rest ih =>
      intro ds x h
      rw [List.foldl_cons] at h
      rcases ih (insertDir ds a) x h with h1 | h1
      · rcases mem_insertDir ds a x h1 with h2 | h2
        · exact Or.inl h2
        · subst h2; exact Or.inr (List.mem_cons_self x rest)
      · exact Or.inr (List.mem_cons_of_mem a h1)

theorem mem_mkdirParents (fs : FS) (q x : Path) (h : x ∈ (mkdirParents fs q).dirs) :
    x ∈ fs.dirs ∨ x ∈ ancestorsOf q :=
  mem_foldl_insertDir (ancestorsOf q) fs.dirs x h

theorem discoveryStep_dirs (d : Path) (acc : FS × List Path) (e : Path × String)
    (x : Path) (h : x ∈ ((discoveryStep d acc e).1).dirs) :
    x ∈ acc.1.dirs ∨ x ∈ ancestorsOf ((d ++ e.1).dropLast) := by
  unfold discoveryStep at h
  split at h <;> exact mem_mkdirParents acc.1 ((d ++ e.1).dropLast) x h

theorem foldl_discoveryStep_dirs (d : Path) :
    ∀ (l : List (Path × String)) (acc : FS × List Path) (x : Path),
    x ∈ ((l.foldl (discoveryStep d) acc).1).dirs →
    x ∈ acc.1.dirs ∨ ∃ e, e ∈ l ∧ x ∈ ancestorsOf ((d ++ e.1).dropLast) := by
  intro l
  induction l with
  | nil => intro acc x h; exact Or.inl h
  | cons a rest ih =>
      intro acc x h
      rw [List.foldl_cons] at h
      rcases ih (discoveryStep d acc a) x h with h1 | h1
      · rcases discoveryStep_dirs d acc a x h1 with h2 | h2
        · exact Or.inl h2
        · exact Or.inr ⟨a, List.mem_cons_self a rest, h2⟩
      · rcases h1 with ⟨e, he, hx⟩
        exact Or.inr ⟨e, List.mem_cons_of_mem a he, hx⟩

/-- Specification-side list of all directories the discovery loop may
create: for each enumerated source file, the ancestors of the parent of its
destination path. -/
def discoveryDirs : List (Path × String) → Path → List Path
  | [], _ => []
  | e :: rest, d => ancestorsOf ((d ++ e.1).dropLast) ++ discoveryDirs rest d

theorem mem_discoveryDirs (d : Path) :
    ∀ (l : List (Path × String)) (e : Path × String) (x : Path),
    e ∈ l → x ∈ ancestorsOf ((d ++ e.1).dropLast) → x ∈ discoveryDirs l d := by
  intro l
  induction l with
  | nil => intro e x he _; cases he
  | cons a rest ih =>
      intro e x he hx
      rcases List.mem_cons.mp he with h1 | h1
      · subst h1
        exact List.mem_append.mpr (Or.inl hx)
      · exact List.mem_append.mpr (Or.inr (ih e x h1 hx))

theorem walkFiles_mkdirParents (fs : FS) (q r : Path) :
    walkFiles (mkdirParents fs q) r = walkFiles fs r := rfl

theorem findFile_wipe (t p : Path) (h : strictlyUnder t p = true) :
    ∀ (l : List (Path × String)),
    findFile (l.filter (fun e => !(strictlyUnder t e.1))) p = none := by
  intro l
  induction l with
  | nil => rfl
  | cons e rest ih =>
      rw [List.filter_cons]
      split
      · rename_i hk
        rw [findFile]
        split
        · rename_i heq
          rw [heq, h] at hk
          simp at hk
        · exact ih
      · exact ih

/-! ### Concrete fixtures

Small filesystems mirroring the spec's scenarios (section 8 of the spec):
`fsA` is the spec's own fixture — source `srcdir` with `a.png` (new) and
`b.png` (overwriting), destination `dest` already holding `b.png` and
`c.png`. -/

def cNEW5 : String := "NEW5KB"

def cNEWA : String := "NEWA"

def cOLD3 : String := "OLD3KB"

def cCCC : String := "CCC"

def cX : String := "XX"

def cB : String := "BB"

def cOldX : String := "OLDX"

def cY : String := "YY"

def cOLDSky : String := "OLDSKY"

def cNEWSky : String := "NEWSKY"

def srcA : Path := ["srcdir"]

def dstA : Path := ["dest"]

def fsA : FS :=
  { files := [(["srcdir", "b.png"], cNEW5), (["srcdir", "a.png"], cNEWA),
              (["dest", "b.png"], cOLD3), (["dest", "c.png"], cCCC)],
    dirs := [["srcdir"], ["dest"]] }

def fsB : FS :=
  { files := [(["srcdir", "x.png"], cX), (["srcdir", "a", "b.png"], cB),
              (["dest", "x.png"], cOldX)],
    dirs := [["srcdir"], ["srcdir", "a"], ["dest"]] }

def srcMissing : Path := ["missing"]

def fsC : FS := { files := [(["dest", "y.png"], cY)], dirs := [["dest"]] }

def eSrc : Path := ["emptysrc"]

def fsD : FS := { files := [(["dest", "y.png"], cY)], dirs := [["dest"], ["emptysrc"]] }

def tsT : String := "T0"

def src0 : Path := ["s"]

def dst0 : Path := ["d"]

def fs0 : FS := { files := [(["s", "f.txt"], cX)], dirs := [["s"], ["d"]] }

/-- The state `copy_tree_over_fixed tsT fs0 src0 dst0` produces: the source
file copied to the destination, and the backup directory chain created. -/
def fs0out : FS :=
  { files := [(["s", "f.txt"], cX), (["d", "f.txt"], cX)],
    dirs := [["s"], ["d"], ["backups"], ["backups", "T0"]] }

def tvP : Path := ["tv"]

def selP : Path := ["sel"]

def fsSky : FS :=
  { files := [(skyDirOf tvP ++ ["old.png"], cOLDSky), (["sel", "new.png"], cNEWSky)],
    dirs := [["tv"], skyDirOf tvP, ["sel"]] }

def pC9 : Path := ["dest", "c.png"]

def pSkyOld : Path := skyDirOf tvP ++ ["old.png"]

/-- Path `p` does not occur among the destination paths of the source tree's
regular files (the frame hypothesis of claim C9). -/
def notAmongSourceRels (fs : FS) (s d p : Path) : Bool :=
  (walkFiles fs s).all (fun e => decide (¬ d ++ e.1 = p))

/-! ### Claim theorems -/

/-- C1: evaluation of `copy_tree_over` at the failing input — the spec's own
fixture, with one destination file (`dest/b.png`) slated for overwrite.  The
discovery loop does list it in `files_to_replace`, but the invocation raises
`NameError` (line 169, undefined `datetime`) with the file table unchanged,
so the backup set stays empty instead of containing the N = 1 byte-identical
file the claim requires, and the operation never completes. -/
theorem C1_no_backup_ever_written :
    filesToReplaceOf fsA srcA dstA = [["dest", "b.png"]] ∧
    (copy_tree_over fsA srcA dstA).1 = Except.error RuntimeError.nameError ∧
    ((copy_tree_over fsA srcA dstA).2).files = fsA.files :=
  ⟨rfl, rfl, copy_tree_over_files fsA srcA dstA⟩

/-- C2: evaluation of `copy_tree_over` at the failing input — a source tree
with M = 2 files, N = 1 of which pre-exists in the destination.  The
invocation raises `NameError`; no `(files_copied, files_overwritten, _)`
result is ever returned, `dest/a.png` is never created, and `dest/b.png`
keeps its pre-patch content instead of the source's. -/
theorem C2_no_copy_ever_performed :
    (walkFiles fsA srcA).length = 2 ∧
    (copy_tree_over fsA srcA dstA).1 = Except.error RuntimeError.nameError ∧
    findFile ((copy_tree_over fsA srcA dstA).2).files (["dest", "a.png"]) = none ∧
    findFile ((copy_tree_over fsA srcA dstA).2).files (["dest", "b.png"]) = some cOLD3 :=
  ⟨rfl, rfl, rfl, rfl⟩

/-- C3: every invocation of `copy_tree_over`, whatever the filesystem and
the two roots, raises `NameError` (the name `datetime` used at line 169 is
bound by no import of the module) before any backup or copy: the resulting
state has the file table unchanged — no file is ever written — and the
`Except.error` result means no `(copied, overwritten, backup_root)` value is
ever returned. -/
theorem C3_always_raises_name_error (fs : FS) (s d : Path) :
    (copy_tree_over fs s d).1 = Except.error RuntimeError.nameError ∧
    ((copy_tree_over fs s d).2).files = fs.files :=
  ⟨rfl, copy_tree_over_files fs s d⟩

/-- C4 counterexample: at the spec's fixture one file is slated for
overwrite (`files_to_replace` is nonempty, so `files_overwritten` would be
positive), yet the invocation raises `NameError` with the directory table
unchanged — no backup directory is ever created — and no result (hence no
`backup_path`) is returned.  This falsifies "the backup directory is created
if and only if `files_overwritten > 0`". -/
theorem C4_counterexample :
    filesToReplaceOf fsA srcA dstA = [["dest", "b.png"]] ∧
    (copy_tree_over fsA srcA dstA).2.dirs = fsA.dirs ∧
    (copy_tree_over fsA srcA dstA).1 = Except.error RuntimeError.nameError :=
  ⟨rfl, rfl, rfl⟩

/-- C4 amended: no invocation of `copy_tree_over` as written reaches the
backup-directory creation — every invocation raises `NameError` first, so no
backup directory is created and no `backup_path` is returned.  Moreover, in
the code's continuation (`copy_tree_over_fixed`, the source with the single
undefined name supplied), any successful run returns
`dst_root.parent/backups/<timestamp>` as its backup path unconditionally —
never null, regardless of `files_overwritten` — because line 171 creates the
directory and line 186 returns it outside the `if files_to_replace:` guard. -/
theorem C4_amended_backup_root_never_null (ts : String) (fs : FS) (s d : Path)
    (r : Nat × Nat × Path) (fs' : FS)
    (h : copy_tree_over_fixed ts fs s d = Except.ok (r, fs')) :
    (copy_tree_over fs s d).1 = Except.error RuntimeError.nameError ∧
    r.2.2 = backupRootOf d ts := by
  refine ⟨rfl, ?_⟩
  unfold copy_tree_over_fixed at h
  split at h
  · exact Except.noConfusion h
  · split at h
    · exact Except.noConfusion h
    · injection h with h1
      injection h1 with h2 h3
      subst h2
      rfl

/-- C4 witness: a concrete run of `copy_tree_over_fixed` with zero files
overwritten still returns the backup path and has created the backup
directory, while the real `copy_tree_over` on the same input raises. -/
theorem C4_amended_witness :
    copy_tree_over_fixed tsT fs0 src0 dst0 =
      Except.ok ((1, 0, backupRootOf dst0 tsT), fs0out) ∧
    backupRootOf dst0 tsT ∈ fs0out.dirs ∧
    ((copy_tree_over fs0 src0 dst0).1 = Except.error RuntimeError.nameError ∧
      ((1, 0, backupRootOf dst0 tsT) : Nat × Nat × Path).2.2 = backupRootOf dst0 tsT) :=
  ⟨rfl, by decide, C4_amended_backup_root_never_null tsT fs0 src0 dst0 _ _ rfl⟩

/-- C5 counterexample: destination `dest` holds `x.png`, slated for
overwrite; the source also holds `a/b.png` whose destination parent `dest/a`
does not exist.  The discovery loop creates the destination directory
`dest/a` (line 166) and then the invocation raises `NameError`: a
destination directory is created although the backup pass for the slated
file never completed (indeed never started — the file table is unchanged,
so nothing was backed up).  This falsifies "no destination file or directory
is created or modified before the backup pass has completed". -/
theorem C5_counterexample :
    filesToReplaceOf fsB srcA dstA = [["dest", "x.png"]] ∧
    (["dest", "a"] : Path) ∈ (copy_tree_over fsB srcA dstA).2.dirs ∧
    ¬ (["dest", "a"] : Path) ∈ fsB.dirs ∧
    (copy_tree_over fsB srcA dstA).1 = Except.error RuntimeError.nameError ∧
    ((copy_tree_over fsB srcA dstA).2).files = fsB.files :=
  ⟨rfl, by decide, by decide, rfl, rfl⟩

/-- C5 amended: on every invocation the destination's regular files are
untouched at the point the invocation aborts (`NameError`, before the backup
pass), but the discovery pass has already created destination parent
directories: every directory of the resulting state is either pre-existing
or an ancestor of the parent of some source file's destination path. -/
theorem C5_amended_only_discovery_dirs (fs : FS) (s d : Path) :
    (copy_tree_over fs s d).1 = Except.error RuntimeError.nameError ∧
    ((copy_tree_over fs s d).2).files = fs.files ∧
    (copy_tree_over fs s d).2.dirs ⊆ fs.dirs ++ discoveryDirs (walkFiles fs s) d := by
  refine ⟨rfl, copy_tree_over_files fs s d, ?_⟩
  intro x hx
  rcases foldl_discoveryStep_dirs d (walkFiles fs s) (fs, []) x hx with h1 | ⟨e, he, hx2⟩
  · exact List.mem_append.mpr (Or.inl h1)
  · exact List.mem_append.mpr (Or.inr (mem_discoveryDirs d (walkFiles fs s) e x he hx2))

/-- C6 counterexample: the source root `missing` does not exist (it is no
directory and holds no file), yet the invocation does not raise an
`IOError`: `os.walk` silently yields nothing for a missing root, and the
invocation raises `NameError` at line 169 like every other. -/
theorem C6_counterexample :
    walkFiles fsC srcMissing = [] ∧
    ¬ srcMissing ∈ fsC.dirs ∧
    (copy_tree_over fsC srcMissing dstA).1 = Except.error RuntimeError.nameError ∧
    ¬ (copy_tree_over fsC srcMissing dstA).1 = Except.error RuntimeError.ioError :=
  ⟨rfl, by decide, rfl, by
    intro hcon
    injection hcon with h2
    exact absurd h2 (by decide)⟩

/-- C6 amended: a missing (or empty) source root raises no `IOError`.  The
code as written raises `NameError` (like every invocation) with the state
unchanged; its continuation with the undefined name supplied
(`copy_tree_over_fixed`) would instead return `(0, 0, backup_root)`
normally, treating the missing source as empty — still no `IOError`. -/
theorem C6_amended_no_io_error (ts : String) (fs : FS) (s d : Path)
    (_h0 : ¬ s ∈ fs.dirs) (h : walkFiles fs s = []) :
    copy_tree_over fs s d = (Except.error RuntimeError.nameError, fs) ∧
    copy_tree_over_fixed ts fs s d =
      Except.ok ((0, 0, backupRootOf d ts), mkdirParents fs (backupRootOf d ts)) := by
  have hw : walkFiles (mkdirParents fs (backupRootOf d ts)) s = [] := by
    rw [walkFiles_mkdirParents, h]
  constructor
  · unfold copy_tree_over discState
    rw [h]
    rfl
  · unfold copy_tree_over_fixed discState
    rw [h]
    show (match (walkFiles (mkdirParents fs (backupRootOf d ts)) s).foldlM
            (copyStep s d) (0, 0, mkdirParents fs (backupRootOf d ts)) with
          | Except.error e => Except.error e
          | Except.ok acc =>
              Except.ok ((acc.1, acc.2.1, backupRootOf d ts), acc.2.2)) = _
    rw [hw]
    rfl

/-- C6 witness: the amended statement at the concrete missing-source input. -/
theorem C6_amended_witness :
    (¬ srcMissing ∈ fsC.dirs ∧ walkFiles fsC srcMissing = []) ∧
    (copy_tree_over fsC srcMissing dstA = (Except.error RuntimeError.nameError, fsC) ∧
     copy_tree_over_fixed tsT fsC srcMissing dstA =
       Except.ok ((0, 0, backupRootOf dstA tsT), mkdirParents fsC (backupRootOf dstA tsT))) :=
  ⟨⟨by decide, rfl⟩, C6_amended_no_io_error tsT fsC srcMissing dstA (by decide) rfl⟩

/-- C7 counterexample: the source root `emptysrc` exists as a directory and
holds no regular file, yet the invocation does not return
`PatchResult{0, 0, null}` — it raises `NameError` (returning nothing).  The
"zero filesystem mutations" half does hold here: the final state equals the
initial one exactly. -/
theorem C7_counterexample :
    eSrc ∈ fsD.dirs ∧
    walkFiles fsD eSrc = [] ∧
    copy_tree_over fsD eSrc dstA = (Except.error RuntimeError.nameError, fsD) :=
  ⟨by decide, rfl, rfl⟩

/-- C7 amended: patching an empty source tree performs zero filesystem
mutations — the resulting state is exactly the initial one — but instead of
returning `PatchResult{0, 0, null}` the invocation raises `NameError`
(line 169); no result is returned. -/
theorem C7_amended_empty_source (fs : FS) (s d : Path) (h : walkFiles fs s = []) :
    copy_tree_over fs s d = (Except.error RuntimeError.nameError, fs) := by
  unfold copy_tree_over discState
  rw [h]
  rfl

/-- C7 witness: the amended statement at the concrete empty-source input. -/
theorem C7_amended_witness :
    walkFiles fsD eSrc = [] ∧
    copy_tree_over fsD eSrc dstA = (Except.error RuntimeError.nameError, fsD) :=
  ⟨rfl, C7_amended_empty_source fsD eSrc dstA rfl⟩

/-- C8: evaluation at the failing input — invoking `copy_tree_over` twice in
succession on the spec's fixture.  Both invocations raise `NameError`; the
destination file table after the two runs still equals the initial one
(`dest/a.png` is never created), so the destination never reaches the
content a completed run would give, and the second invocation returns no
`files_overwritten` count at all. -/
theorem C8_double_invocation_never_returns :
    (copy_tree_over fsA srcA dstA).1 = Except.error RuntimeError.nameError ∧
    (copy_tree_over ((copy_tree_over fsA srcA dstA).2) srcA dstA).1 =
      Except.error RuntimeError.nameError ∧
    ((copy_tree_over ((copy_tree_over fsA srcA dstA).2) srcA dstA).2).files = fsA.files ∧
    findFile fsA.files (["dest", "a.png"]) = none :=
  ⟨rfl, rfl, rfl, rfl⟩

/-- C9: every destination file whose path is not among the destination paths
of the source tree's files keeps its original content after the invocation.
This holds — degenerately so: the invocation raises `NameError` before the
copy pass, so no regular file anywhere is created or modified, and in
particular every such frame file is untouched. -/
theorem C9_frame_untouched (fs : FS) (s d p : Path)
    (_h : notAmongSourceRels fs s d p = true) :
    findFile ((copy_tree_over fs s d).2).files p = findFile fs.files p := by
  rw [copy_tree_over_files]

/-- C9 witness: the spec's `c.png` — present in the destination, absent from
the source — keeps its content across the invocation. -/
theorem C9_frame_untouched_witness :
    notAmongSourceRels fsA srcA dstA pC9 = true ∧
    findFile ((copy_tree_over fsA srcA dstA).2).files pC9 = findFile fsA.files pC9 :=
  ⟨by decide, C9_frame_untouched fsA srcA dstA pC9 (by decide)⟩

/-- C10 counterexample: the destination sky directory holds `old.png`, which
is not in the selected skybox source.  `patch_custom_sky` deletes it before
invoking `copy_tree_over` (lines 265-273): afterwards `old.png` is gone —
not "left in place" — and nothing was backed up (the resulting file table
holds only the untouched source file; the `copy_tree_over` call then raises
`NameError`, so the skybox is not even copied). -/
theorem C10_counterexample :
    findFile fsSky.files pSkyOld = some cOLDSky ∧
    findFile ((patch_custom_sky_apply fsSky selP tvP).2).files pSkyOld = none ∧
    (patch_custom_sky_apply fsSky selP tvP).1 = Except.error RuntimeError.nameError ∧
    ((patch_custom_sky_apply fsSky selP tvP).2).files = [(["sel", "new.png"], cNEWSky)] :=
  ⟨rfl, rfl, rfl, rfl⟩

/-- C10 amended: the skybox sub-target is not patched under the `patch`
contract: when the sky destination directory exists, `patch_custom_sky`
first deletes every entry below it, so after the call every file strictly
under the sky directory is gone — pre-existing sky files are neither left in
place nor backed up — and the `copy_tree_over` call then raises `NameError`
like every invocation, so the selected skybox is not copied either. -/
theorem C10_amended_sky_wiped (fs : FS) (selected target_version p : Path)
    (h1 : skyDirOf target_version ∈ fs.dirs)
    (h2 : strictlyUnder (skyDirOf target_version) p = true) :
    findFile ((patch_custom_sky_apply fs selected target_version).2).files p = none ∧
    (patch_custom_sky_apply fs selected target_version).1 =
      Except.error RuntimeError.nameError := by
  have hex : fs.existsPath (skyDirOf target_version) = true := by
    unfold FS.existsPath
    simp [h1]
  unfold patch_custom_sky_apply
  rw [if_pos hex]
  constructor
  · rw [copy_tree_over_files]
    exact findFile_wipe (skyDirOf target_version) p h2 fs.files
  · rfl

/-- C10 witness: the amended statement at the concrete sky fixture. -/
theorem C10_amended_witness :
    (skyDirOf tvP ∈ fsSky.dirs ∧ strictlyUnder (skyDirOf tvP) pSkyOld = true) ∧
    (findFile ((patch_custom_sky_apply fsSky selP tvP).2).files pSkyOld = none ∧
     (patch_custom_sky_apply fsSky selP tvP).1 = Except.error RuntimeError.nameError) :=
  ⟨⟨by decide, by decide⟩, C10_amended_sky_wiped fsSky selP tvP pSkyOld (by decide) (by decide)⟩

end RivalsPatcher
